import Mathlib

/- Verification of estafette-extension-gke: the parameter resolution
   (SetDefaults / ValidateRequiredProperties), manifest template composition
   (getTemplates) and the deployment reconciliation command phase of main.go.

   The Params data model is taken from the source; SetDefaults,
   ValidateRequiredProperties and getTemplates themselves are not present in
   the source tree (only their tests are), so those are modelled from the
   specification and checked against the test suite below. -/

set_option maxRecDepth 4096

structure CPUParams where
  Request : String := ""
  Limit : String := ""
deriving DecidableEq, Repr

structure MemoryParams where
  Request : String := ""
  Limit : String := ""
deriving DecidableEq, Repr

structure ProbeParams where
  Path : String := ""
  InitialDelaySeconds : Int := 0
  TimeoutSeconds : Int := 0
deriving DecidableEq, Repr

structure MetricsParams where
  Scrape : String := ""
  Path : String := ""
  Port : Int := 0
deriving DecidableEq, Repr

structure ContainerParams where
  ImageRepository : String := ""
  ImageName : String := ""
  ImageTag : String := ""
  Port : Int := 0
  CPU : CPUParams := {}
  Memory : MemoryParams := {}
  LivenessProbe : ProbeParams := {}
  ReadinessProbe : ProbeParams := {}
  Metrics : MetricsParams := {}
deriving DecidableEq, Repr

structure SidecarParams where
  «Type» : String := ""
  Image : String := ""
  CPU : CPUParams := {}
  Memory : MemoryParams := {}
deriving DecidableEq, Repr

structure AutoscaleParams where
  MinReplicas : Int := 0
  MaxReplicas : Int := 0
  CPUPercentage : Int := 0
deriving DecidableEq, Repr

structure RollingUpdateParams where
  MaxSurge : String := ""
  MaxUnavailable : String := ""
deriving DecidableEq, Repr

structure ConfigsParams where
  Files : List String := []
  MountPath : String := ""
deriving DecidableEq, Repr

structure SecretsParams where
  Keys : List (String × String) := []
  MountPath : String := ""
deriving DecidableEq, Repr

structure Params where
  Credentials : String := ""
  App : String := ""
  Namespace : String := ""
  BuildVersion : String := ""
  Action : String := ""
  DryRun : Bool := false
  Labels : List (String × String) := []
  Visibility : String := ""
  Hosts : List String := []
  Basepath : String := ""
  Autoscale : AutoscaleParams := {}
  RollingUpdate : RollingUpdateParams := {}
  Container : ContainerParams := {}
  Sidecar : SidecarParams := {}
  Configs : ConfigsParams := {}
  Secrets : SecretsParams := {}
  TrustedIPRanges : List String := []
  LocalManifests : List String := []
deriving DecidableEq, Repr

/-- Modelled from the spec: cross-fallback defaulting for a CPU request/limit
pair (params.go is absent from the source tree; spec section 4.1: each side
falls back to the other when only one is set, both fall back to the fixed
constants when both are empty). -/
def defaultCPUPair (defRequest defLimit : String) (c : CPUParams) : CPUParams :=
  if c.Request = "" ∧ c.Limit = "" then { Request := defRequest, Limit := defLimit }
  else if c.Request = "" then { Request := c.Limit, Limit := c.Limit }
  else if c.Limit = "" then { Request := c.Request, Limit := c.Request }
  else c

/-- Modelled from the spec: cross-fallback defaulting for a memory
request/limit pair, same scheme as the CPU pair. -/
def defaultMemoryPair (defRequest defLimit : String) (m : MemoryParams) : MemoryParams :=
  if m.Request = "" ∧ m.Limit = "" then { Request := defRequest, Limit := defLimit }
  else if m.Request = "" then { Request := m.Limit, Limit := m.Limit }
  else if m.Limit = "" then { Request := m.Request, Limit := m.Request }
  else m

/-- Overwrite of one key in a label map (Go map assignment on the labels map). -/
def setLabel (key value : String) : List (String × String) → List (String × String)
  | [] => [(key, value)]
  | (k, v) :: rest => if k = key then (k, value) :: rest else (k, v) :: setLabel key value rest

/-- Modelled from the spec: the literal Cloudflare IPv4 CIDR list (14 entries)
used as the trusted-IP-ranges default; first and last entries are pinned by
TestSetDefaults. -/
def cloudflareIPRanges : List String :=
  ["103.21.244.0/22", "103.22.200.0/22", "103.31.4.0/22", "104.16.0.0/12",
   "108.162.192.0/18", "131.0.72.0/22", "141.101.64.0/18", "162.158.0.0/15",
   "172.64.0.0/13", "173.245.48.0/20", "188.114.96.0/20", "190.93.240.0/20",
   "197.234.240.0/22", "198.41.128.0/17"]

/-- Modelled from the spec: Params.SetDefaults (params.go is absent from the
source tree; spec section 4.1 gives every constant, TestSetDefaults in the
source pins the behaviour). Field-level defaulting: an empty/zero field
resolves to the documented constant or seed, a set field is kept; the app
label key is overwritten to the resolved application name whenever that name
is non-empty. -/
def Params.SetDefaults (p : Params) (appLabel buildVersion releaseName : String)
    (estafetteLabels : List (String × String)) : Params :=
  let app := if p.App = "" then appLabel else p.App
  let containerPort := if p.Container.Port = 0 then 5000 else p.Container.Port
  let labels0 := if p.Labels = [] then estafetteLabels else p.Labels
  let labels := if app = "" then labels0 else setLabel "app" app labels0
  { p with
    App := app
    Credentials := if p.Credentials = "" then "gke-" ++ releaseName else p.Credentials
    BuildVersion := buildVersion
    Labels := labels
    Visibility := if p.Visibility = "" then "private" else p.Visibility
    Basepath := if p.Basepath = "" then "/" else p.Basepath
    Autoscale := {
      MinReplicas := if p.Autoscale.MinReplicas = 0 then 3 else p.Autoscale.MinReplicas
      MaxReplicas := if p.Autoscale.MaxReplicas = 0 then 100 else p.Autoscale.MaxReplicas
      CPUPercentage := if p.Autoscale.CPUPercentage = 0 then 80 else p.Autoscale.CPUPercentage }
    RollingUpdate := {
      MaxSurge := if p.RollingUpdate.MaxSurge = "" then "25%" else p.RollingUpdate.MaxSurge
      MaxUnavailable := if p.RollingUpdate.MaxUnavailable = "" then "25%" else p.RollingUpdate.MaxUnavailable }
    Container := { p.Container with
      ImageName := if p.Container.ImageName = "" then app else p.Container.ImageName
      ImageTag := if p.Container.ImageTag = "" then buildVersion else p.Container.ImageTag
      Port := containerPort
      CPU := defaultCPUPair "100m" "125m" p.Container.CPU
      Memory := defaultMemoryPair "128Mi" "128Mi" p.Container.Memory
      LivenessProbe := {
        Path := if p.Container.LivenessProbe.Path = "" then "/liveness" else p.Container.LivenessProbe.Path
        InitialDelaySeconds := if p.Container.LivenessProbe.InitialDelaySeconds = 0 then 30
          else p.Container.LivenessProbe.InitialDelaySeconds
        TimeoutSeconds := if p.Container.LivenessProbe.TimeoutSeconds = 0 then 1
          else p.Container.LivenessProbe.TimeoutSeconds }
      ReadinessProbe := {
        Path := if p.Container.ReadinessProbe.Path = "" then "/readiness" else p.Container.ReadinessProbe.Path
        InitialDelaySeconds := p.Container.ReadinessProbe.InitialDelaySeconds
        TimeoutSeconds := if p.Container.ReadinessProbe.TimeoutSeconds = 0 then 1
          else p.Container.ReadinessProbe.TimeoutSeconds }
      Metrics := {
        Scrape := if p.Container.Metrics.Scrape = "" then "true" else p.Container.Metrics.Scrape
        Path := if p.Container.Metrics.Path = "" then "/metrics" else p.Container.Metrics.Path
        Port := if p.Container.Metrics.Port = 0 then containerPort else p.Container.Metrics.Port } }
    Sidecar := {
      «Type» := if p.Sidecar.«Type» = "" then "openresty" else p.Sidecar.«Type»
      Image := if p.Sidecar.Image = "" then "estafette/openresty-sidecar:1.13.6.1-alpine" else p.Sidecar.Image
      CPU := defaultCPUPair "10m" "50m" p.Sidecar.CPU
      Memory := defaultMemoryPair "10Mi" "50Mi" p.Sidecar.Memory }
    Configs := { p.Configs with
      MountPath := if p.Configs.MountPath = "" then "/configs" else p.Configs.MountPath }
    Secrets := { p.Secrets with
      MountPath := if p.Secrets.MountPath = "" then "/secrets" else p.Secrets.MountPath }
    TrustedIPRanges := if p.TrustedIPRanges = [] then cloudflareIPRanges else p.TrustedIPRanges }

/-- Modelled from the spec: Params.ValidateRequiredProperties (params.go is
absent from the source tree; spec section 4.1 lists the rules and
TestValidateRequiredProperties in the source pins them). Every violated rule
contributes an error message; the rules are split over four helper
definitions below and concatenated. This first group covers the identity and
visibility rules. -/
def validateIdentityErrors (p : Params) : List String :=
  List.flatten [
    (if p.App = "" then ["application name is required"] else []),
    (if p.Namespace = "" then ["namespace is required"] else []),
    (if p.Container.ImageRepository = "" then ["image repository is required"] else []),
    (if p.Container.ImageName = "" then ["image name is required"] else []),
    (if p.Container.ImageTag = "" then ["image tag is required"] else []),
    (if p.Credentials = "" then ["credentials parameter is required"] else []),
    (if p.Visibility = "public" ∨ p.Visibility = "private" ∨ p.Visibility = "iap" then []
     else ["visibility must be one of public, private or iap"])]

/-- Modelled from the spec: the container resource and exposure rules. -/
def validateResourceErrors (p : Params) : List String :=
  List.flatten [
    (if p.Container.CPU.Request = "" then ["cpu request is required"] else []),
    (if p.Container.CPU.Limit = "" then ["cpu limit is required"] else []),
    (if p.Container.Memory.Request = "" then ["memory request is required"] else []),
    (if p.Container.Memory.Limit = "" then ["memory limit is required"] else []),
    (if p.Container.Port ≤ 0 then ["container port must be larger than zero"] else []),
    (if p.Hosts = [] then ["at least one host is required"] else []),
    (if p.Autoscale.MinReplicas ≤ 0 then ["autoscale min replicas must be larger than zero"] else []),
    (if p.Autoscale.MaxReplicas ≤ 0 then ["autoscale max replicas must be larger than zero"] else []),
    (if p.Autoscale.CPUPercentage ≤ 0 then ["autoscale cpu percentage must be larger than zero"] else [])]

/-- Modelled from the spec: the probe and metrics rules; readiness initial
delay may legitimately be zero, and the metrics rules are conditional on the
scrape literal. -/
def validateProbeAndMetricsErrors (p : Params) : List String :=
  List.flatten [
    (if p.Container.LivenessProbe.Path = "" then ["liveness path is required"] else []),
    (if p.Container.LivenessProbe.InitialDelaySeconds ≤ 0 then
      ["liveness initial delay seconds must be larger than zero"] else []),
    (if p.Container.LivenessProbe.TimeoutSeconds ≤ 0 then
      ["liveness timeout seconds must be larger than zero"] else []),
    (if p.Container.ReadinessProbe.Path = "" then ["readiness path is required"] else []),
    (if p.Container.ReadinessProbe.TimeoutSeconds ≤ 0 then
      ["readiness timeout seconds must be larger than zero"] else []),
    (if p.Container.Metrics.Scrape = "true" then
      (if p.Container.Metrics.Path = "" then ["metrics path is required when scraping"] else []) ++
      (if p.Container.Metrics.Port ≤ 0 then ["metrics port must be larger than zero when scraping"] else [])
     else if p.Container.Metrics.Scrape = "false" then []
     else ["metrics scrape must be true or false"])]

/-- Modelled from the spec: the sidecar and rolling-update rules. -/
def validateSidecarAndRolloutErrors (p : Params) : List String :=
  List.flatten [
    (if p.Sidecar.«Type» = "" then ["sidecar type is required"] else []),
    (if p.Sidecar.Image = "" then ["sidecar image is required"] else []),
    (if p.Sidecar.CPU.Request = "" then ["sidecar cpu request is required"] else []),
    (if p.Sidecar.CPU.Limit = "" then ["sidecar cpu limit is required"] else []),
    (if p.Sidecar.Memory.Request = "" then ["sidecar memory request is required"] else []),
    (if p.Sidecar.Memory.Limit = "" then ["sidecar memory limit is required"] else []),
    (if p.Basepath = "" then ["basepath is required"] else []),
    (if p.RollingUpdate.MaxSurge = "" then ["rolling update max surge is required"] else []),
    (if p.RollingUpdate.MaxUnavailable = "" then ["rolling update max unavailable is required"] else [])]

/-- Modelled from the spec: the full accumulated validation result. -/
def Params.ValidateRequiredProperties (p : Params) : Bool × List String :=
  let errors := validateIdentityErrors p ++ validateResourceErrors p ++
    validateProbeAndMetricsErrors p ++ validateSidecarAndRolloutErrors p
  (errors.isEmpty, errors)

/-- The fully-valid baseline configuration, copied verbatim from the test
suite (validParams in the source). -/
def validParams : Params :=
  { Credentials := "gke-production"
    App := "myapp"
    Namespace := "mynamespace"
    Autoscale := { MinReplicas := 3, MaxReplicas := 100, CPUPercentage := 80 }
    RollingUpdate := { MaxSurge := "25%", MaxUnavailable := "25%" }
    Container := {
      ImageRepository := "estafette"
      ImageName := "my-app"
      ImageTag := "1.0.0"
      Port := 5000
      CPU := { Request := "100m", Limit := "150m" }
      Memory := { Request := "768Mi", Limit := "1024Mi" }
      LivenessProbe := { Path := "/liveness", InitialDelaySeconds := 30, TimeoutSeconds := 1 }
      ReadinessProbe := { Path := "/readiness", InitialDelaySeconds := 0, TimeoutSeconds := 1 }
      Metrics := { Scrape := "true", Path := "/metrics", Port := 5000 } }
    Visibility := "private"
    Hosts := ["gke.estafette.io"]
    Basepath := "/"
    Sidecar := {
      «Type» := "openresty"
      Image := "estafette/openresty-sidecar:1.13.6.1-alpine"
      CPU := { Request := "10m", Limit := "50m" }
      Memory := { Request := "10Mi", Limit := "50Mi" } } }

theorem setDefaults_check_appFromLabel :
    (Params.SetDefaults {} "myapp" "" "" []).App = "myapp" := by decide

theorem setDefaults_check_keepsApp :
    (Params.SetDefaults { App := "yourapp" } "myapp" "" "" []).App = "yourapp" := by decide

theorem setDefaults_check_credentialsFromReleaseName :
    (Params.SetDefaults {} "" "" "production" []).Credentials = "gke-production" := by decide

theorem setDefaults_check_cpuCrossFallback :
    (Params.SetDefaults { Container := { CPU := { Request := "", Limit := "300m" } } } "" "" "" []).Container.CPU
      = { Request := "300m", Limit := "300m" } := by decide

theorem setDefaults_check_cpuDefaults :
    (Params.SetDefaults {} "" "" "" []).Container.CPU = { Request := "100m", Limit := "125m" } := by decide

theorem setDefaults_check_metricsPortFollowsContainerPort :
    (Params.SetDefaults { Container := { Port := 3000 } } "" "" "" []).Container.Metrics.Port = 3000 := by decide

theorem setDefaults_check_labelsSeededAndAppOverwritten :
    (Params.SetDefaults {} "yourapp" "" "" [("app", "myapp"), ("team", "myteam"), ("language", "golang")]).Labels
      = [("app", "yourapp"), ("team", "myteam"), ("language", "golang")] := by decide

theorem setDefaults_check_trustedIPRanges :
    (Params.SetDefaults {} "" "" "" []).TrustedIPRanges.length = 14 ∧
    (Params.SetDefaults { TrustedIPRanges := ["0.0.0.0/0"] } "" "" "" []).TrustedIPRanges = ["0.0.0.0/0"] := by decide

theorem validate_check_baseline :
    validParams.ValidateRequiredProperties = (true, []) := by decide

theorem validate_check_visibilityUnsupported :
    ({ validParams with Visibility := "everywhere" } : Params).ValidateRequiredProperties.1 = false := by decide

/-- Base filename of a template path: its final path segment (filepath.Base),
computed by a structural fold so that it evaluates inside the kernel. -/
def baseFilename (path : String) : String :=
  String.mk (path.toList.foldl (fun acc c => if c = '/' then [] else acc ++ [c]) [])

/-- Modelled from the spec: the override pass of the template composer
(templateBuilder.go is absent from the source tree; spec section 4.2 and
TestGetTemplates in the source pin it). An override whose base filename
matches an already-selected template replaces it in place; otherwise the
override is appended at the end. -/
def overrideTemplate (templates : List String) (override : String) : List String :=
  if templates.any (fun t => baseFilename t = baseFilename override) then
    templates.map (fun t => if baseFilename t = baseFilename override then override else t)
  else
    templates ++ [override]

/-- Modelled from the spec: the fixed always-on core of the template set
(opaque identifiers; the test suite pins that service.yaml is among them). -/
def baseTemplates : List String :=
  ["/templates/namespace.yaml", "/templates/serviceaccount.yaml",
   "/templates/poddisruptionbudget.yaml", "/templates/horizontalpodautoscaler.yaml",
   "/templates/deployment.yaml", "/templates/service.yaml"]

/-- Modelled from the spec: getTemplates composes the ordered template set —
the fixed core, the ingress template for visibility private or iap, the
secrets and configs manifests when their maps are non-empty, then the
local-manifest override pass. -/
def getTemplates (p : Params) : List String :=
  let selected := baseTemplates
    ++ (if p.Visibility = "private" ∨ p.Visibility = "iap" then ["/templates/ingress.yaml"] else [])
    ++ (if p.Secrets.Keys ≠ [] then ["/templates/application-secrets.yaml"] else [])
    ++ (if p.Configs.Files ≠ [] then ["/templates/application-configs.yaml"] else [])
  p.LocalManifests.foldl overrideTemplate selected

theorem getTemplates_check_ingressPrivate :
    "/templates/ingress.yaml" ∈ getTemplates { Visibility := "private" } := by decide

theorem getTemplates_check_ingressIap :
    "/templates/ingress.yaml" ∈ getTemplates { Visibility := "iap" } := by decide

theorem getTemplates_check_noIngressPublic :
    "/templates/ingress.yaml" ∉ getTemplates { Visibility := "public" } := by decide

theorem getTemplates_check_secrets :
    "/templates/application-secrets.yaml" ∈
      getTemplates { Secrets := { Keys := [("secret-file-1.json", "c29tZSBzZWNyZXQgdmFsdWU=")] } } ∧
    "/templates/application-secrets.yaml" ∉ getTemplates {} := by decide

theorem getTemplates_check_localManifestAppended :
    "./gke/another-ingress.yaml" ∈ getTemplates { LocalManifests := ["./gke/another-ingress.yaml"] } := by decide

theorem getTemplates_check_localManifestOverrides :
    "./gke/service.yaml" ∈ getTemplates { LocalManifests := ["./gke/service.yaml"] } ∧
    "/templates/service.yaml" ∉ getTemplates { LocalManifests := ["./gke/service.yaml"] } := by decide

/-- A command issued through the command runner: executable name plus
argument list (main.go runCommand / runCommandExtended / getCommandOutput). -/
structure Cmd where
  tool : String
  args : List String
deriving DecidableEq, Repr

/-- Final fate of the process: normal exit or log.Fatal. -/
inductive Outcome
  | completed
  | fatal
deriving DecidableEq, Repr

/-- The cluster-describing fields of the selected credential used by main.go
(project, cluster, zone/region and the service account client email). -/
structure GKEClusterInfo where
  saClientEmail : String := ""
  project : String := ""
  cluster : String := ""
  zone : String := ""
  region : String := ""
deriving DecidableEq, Repr

/-- Sequential execution of a list of fatal-on-error commands: the `ok`
oracle gives the exit status of the i-th abort-relevant command of the run.
Returns the commands actually issued, the next oracle index, and whether the
whole list completed. Execution stops at the first failing command
(runCommand calls handleError, which is fatal). -/
def runCommandSeq (ok : Nat → Bool) : List Cmd → Nat → List Cmd × Nat × Bool
  | [], i => ([], i, true)
  | c :: cs, i =>
    if ok i then
      let r := runCommandSeq ok cs (i + 1)
      (c :: r.1, r.2.1, r.2.2)
    else ([c], i + 1, false)

/-- Embedding of main.go kubectlApplyArgs (line 196). -/
def kubectlApplyArgs (ns : String) : List String :=
  ["apply", "-f", "/kubernetes.yaml", "-n", ns]

/-- Embedding of main.go scaleCanaryDeployment (lines 281-284). -/
def scaleCanaryDeployment (name ns : String) (replicas : Int) : Cmd :=
  ⟨"kubectl", ["scale", "deploy", name ++ "-canary", "-n", ns, "--replicas=" ++ toString replicas]⟩

/-- Embedding of main.go deleteResourcesForTypeSwitch (lines 286-294). -/
def deleteResourcesForTypeSwitch (name ns : String) : List Cmd :=
  [⟨"kubectl", ["delete", "deploy", name, "-n", ns, "--ignore-not-found=true"]⟩,
   ⟨"kubectl", ["delete", "configmap", name ++ "-configs", "-n", ns, "--ignore-not-found=true"]⟩,
   ⟨"kubectl", ["delete", "secret", name ++ "-secrets", "-n", ns, "--ignore-not-found=true"]⟩,
   ⟨"kubectl", ["delete", "hpa", name, "-n", ns, "--ignore-not-found=true"]⟩,
   ⟨"kubectl", ["delete", "pdb", name, "-n", ns, "--ignore-not-found=true"]⟩]

/-- Embedding of main.go deleteConfigsForParamsChange (lines 296-301). -/
def deleteConfigsForParamsChange (p : Params) (name ns : String) : List Cmd :=
  if p.Configs.Files = [] then
    [⟨"kubectl", ["delete", "configmap", name ++ "-configs", "-n", ns, "--ignore-not-found=true"]⟩]
  else []

/-- Embedding of main.go deleteSecretsForParamsChange (lines 303-308). -/
def deleteSecretsForParamsChange (p : Params) (name ns : String) : List Cmd :=
  if p.Secrets.Keys = [] then
    [⟨"kubectl", ["delete", "secret", name ++ "-secrets", "-n", ns, "--ignore-not-found=true"]⟩]
  else []

/-- Embedding of main.go deleteIngressForVisibilityChange (lines 310-316). -/
def deleteIngressForVisibilityChange (p : Params) (name ns : String) : List Cmd :=
  if p.Visibility = "public" then
    [⟨"kubectl", ["delete", "ingress", name, "-n", ns, "--ignore-not-found=true"]⟩]
  else []

/-- Embedding of main.go removeEstafetteCloudflareAnnotations (lines 341-350):
the four estafette.io/cloudflare annotations are removed from the service
exactly when visibility is private or iap. -/
def removeEstafetteCloudflareAnnotations (p : Params) (name ns : String) : List Cmd :=
  if p.Visibility = "private" ∨ p.Visibility = "iap" then
    [⟨"kubectl", ["annotate", "svc", name, "-n", ns, "estafette.io/cloudflare-dns-"]⟩,
     ⟨"kubectl", ["annotate", "svc", name, "-n", ns, "estafette.io/cloudflare-proxy-"]⟩,
     ⟨"kubectl", ["annotate", "svc", name, "-n", ns, "estafette.io/cloudflare-hostnames-"]⟩,
     ⟨"kubectl", ["annotate", "svc", name, "-n", ns, "estafette.io/cloudflare-state-"]⟩]
  else []

/-- Embedding of the cleanup switch of main.go (lines 220-245), keyed on the
requested action. -/
def cleanupCommands (p : Params) (name ns : String) : List Cmd :=
  if p.Action = "deploy-canary" then
    [scaleCanaryDeployment name ns 1]
      ++ deleteConfigsForParamsChange p (name ++ "-canary") ns
      ++ deleteSecretsForParamsChange p (name ++ "-canary") ns
  else if p.Action = "deploy-stable" then
    [scaleCanaryDeployment name ns 0]
      ++ deleteResourcesForTypeSwitch name ns
      ++ deleteConfigsForParamsChange p (name ++ "-stable") ns
      ++ deleteSecretsForParamsChange p (name ++ "-stable") ns
      ++ deleteIngressForVisibilityChange p name ns
      ++ removeEstafetteCloudflareAnnotations p name ns
  else if p.Action = "rollback-canary" then
    [scaleCanaryDeployment name ns 0]
  else if p.Action = "deploy-simple" then
    deleteResourcesForTypeSwitch (name ++ "-canary") ns
      ++ deleteResourcesForTypeSwitch (name ++ "-stable") ns
      ++ deleteConfigsForParamsChange p name ns
      ++ deleteSecretsForParamsChange p name ns
      ++ deleteIngressForVisibilityChange p name ns
      ++ removeEstafetteCloudflareAnnotations p name ns
  else []

/-- Embedding of main.go assistTroubleshooting (lines 251-279): the
diagnostics commands issued when the troubleshooting flag is on — the
labelled object listing, the canary logs for action deploy-canary, and the
event stream piped through grep. Their errors are ignored, so they never
abort the run. -/
def assistTroubleshooting (p : Params) : List Cmd :=
  [⟨"kubectl", ["get", "ing,svc,cm,secret,deploy,pdb,hpa,po,ep", "-l", "app=" ++ p.App, "-n", p.Namespace]⟩]
    ++ (if p.Action = "deploy-canary" then
      [⟨"kubectl", ["logs", "-l", "app=" ++ p.App ++ ",track=canary", "-n", p.Namespace, "-c", p.App]⟩]
     else [])
    ++ [⟨"kubectl", ["get", "events", "--sort-by=.metadata.creationTimestamp", "-n", p.Namespace]⟩,
        ⟨"grep", [p.App]⟩]

/-- Embedding of the service-type lookup of patchServiceIfRequired
(main.go line 320). -/
def getServiceTypeCmd (name ns : String) : Cmd :=
  ⟨"kubectl", ["get", "service", name, "-n", ns, "-o=jsonpath=\x7b.spec.type\x7d"]⟩

/-- Embedding of the first JSON patch of patchServiceIfRequired
(main.go line 328). -/
def patchServiceCmd1 (name ns : String) : Cmd :=
  ⟨"kubectl", ["patch", "service", name, "-n", ns, "--type", "json", "--patch",
    "[\x7b\"op\": \"remove\", \"path\": \"/spec/loadBalancerSourceRanges\"\x7d,\x7b\"op\": \"remove\", \"path\": \"/spec/externalTrafficPolicy\"\x7d, \x7b\"op\": \"remove\", \"path\": \"/spec/ports/0/nodePort\"\x7d, \x7b\"op\": \"remove\", \"path\": \"/spec/ports/1/nodePort\"\x7d, \x7b\"op\": \"replace\", \"path\": \"/spec/type\", \"value\": \"ClusterIP\"\x7d]"]⟩

/-- Embedding of the fallback JSON patch of patchServiceIfRequired
(main.go line 330). -/
def patchServiceCmd2 (name ns : String) : Cmd :=
  ⟨"kubectl", ["patch", "service", name, "-n", ns, "--type", "json", "--patch",
    "[\x7b\"op\": \"remove\", \"path\": \"/spec/externalTrafficPolicy\"\x7d, \x7b\"op\": \"remove\", \"path\": \"/spec/ports/0/nodePort\"\x7d, \x7b\"op\": \"remove\", \"path\": \"/spec/ports/1/nodePort\"\x7d, \x7b\"op\": \"replace\", \"path\": \"/spec/type\", \"value\": \"ClusterIP\"\x7d]"]⟩

/-- Embedding of patchServiceIfRequired (main.go lines 318-339): for
visibility private the service type is inspected (svcType oracle); NodePort
or LoadBalancer services are patched, with one fallback patch; a second
failure is fatal via log.Fatal, without the diagnostics collector. Returns
the issued commands, the next oracle index and whether execution continues. -/
def patchServiceIfRequired (name ns : String) (ok : Nat → Bool) (svcType : String)
    (i : Nat) : List Cmd × Nat × Bool :=
  if svcType = "NodePort" ∨ svcType = "LoadBalancer" then
    if ok i then ([getServiceTypeCmd name ns, patchServiceCmd1 name ns], i + 1, true)
    else if ok (i + 1) then
      ([getServiceTypeCmd name ns, patchServiceCmd1 name ns, patchServiceCmd2 name ns], i + 2, true)
    else ([getServiceTypeCmd name ns, patchServiceCmd1 name ns, patchServiceCmd2 name ns], i + 2, false)
  else ([getServiceTypeCmd name ns], i, true)

/-- The three gcloud authentication commands of main.go (lines 176-183). -/
def gcloudAuthCmds (cred : GKEClusterInfo) : List Cmd :=
  [⟨"gcloud", ["auth", "activate-service-account", cred.saClientEmail, "--key-file", "/key-file.json"]⟩,
   ⟨"gcloud", ["config", "set", "account", cred.saClientEmail]⟩,
   ⟨"gcloud", ["config", "set", "project", cred.project]⟩]

/-- The cluster credentials command of main.go (lines 185-194), valid only
when a zone or region is configured. -/
def gcloudGetCredentialsCmd (cred : GKEClusterInfo) : Cmd :=
  ⟨"gcloud", ["container", "clusters", "get-credentials", cred.cluster] ++
    (if cred.zone ≠ "" then ["--zone", cred.zone] else ["--region", cred.region])⟩

/-- The mutating phase of main.go (lines 209-247): optional service patch,
real apply and rollout wait when a manifest was rendered, then the cleanup
switch, then the troubleshooting output (the flag is on by now, so it also
runs on success). Starts at oracle index `i`. -/
def mutatingPhase (p : Params) (tmpl : Bool) (name ns nameWithTrack : String)
    (ok : Nat → Bool) (svcType : String) (i : Nat) : List Cmd × Outcome :=
  let patchRes :=
    if tmpl ∧ p.Visibility = "private" then patchServiceIfRequired name ns ok svcType i
    else ([], i, true)
  if patchRes.2.2 then
    let mutCmds :=
      (if tmpl then
        [⟨"kubectl", kubectlApplyArgs ns⟩,
         ⟨"kubectl", ["rollout", "status", "deployment", nameWithTrack, "-n", ns]⟩]
       else [])
      ++ cleanupCommands p name ns
    let r := runCommandSeq ok mutCmds patchRes.2.1
    (patchRes.1 ++ r.1 ++ assistTroubleshooting p, if r.2.2 then .completed else .fatal)
  else (patchRes.1, .fatal)

/-- Commands issued between authentication and the dry-run gate: the cluster
credentials command and, when a manifest was rendered, the forced dry-run
validation apply (main.go lines 185-201). -/
def preApplyCmds (cred : GKEClusterInfo) (ns : String) (tmpl : Bool) : List Cmd :=
  [gcloudGetCredentialsCmd cred]
    ++ (if tmpl then [⟨"kubectl", kubectlApplyArgs ns ++ ["--dry-run"]⟩] else [])

/-- Embedding of the command phase of main.go (lines 176-248): gcloud
authentication, cluster credentials, the forced dry-run validation apply when
a manifest was rendered, the dry-run gate, and the mutating phase. `tmpl`
states whether a manifest was rendered, `ok` is the exit-status oracle and
`svcType` the service-type lookup output. -/
def mainDeploy (p : Params) (cred : GKEClusterInfo) (tmpl : Bool)
    (name ns nameWithTrack : String) (ok : Nat → Bool) (svcType : String) :
    List Cmd × Outcome :=
  let r0 := runCommandSeq ok (gcloudAuthCmds cred) 0
  if r0.2.2 then
    if cred.zone = "" ∧ cred.region = "" then (r0.1, .fatal)
    else
      let r1 := runCommandSeq ok (preApplyCmds cred ns tmpl) r0.2.1
      if r1.2.2 then
        if p.DryRun then (r0.1 ++ r1.1, .completed)
        else
          let m := mutatingPhase p tmpl name ns nameWithTrack ok svcType r1.2.1
          (r0.1 ++ r1.1 ++ m.1, m.2)
      else (r0.1 ++ r1.1, .fatal)
  else (r0.1, .fatal)

/-- A command that mutates cluster state: a kubectl apply, rollout, scale,
delete, annotate or patch without the dry-run flag. -/
def Cmd.isMutating (c : Cmd) : Bool :=
  if c.tool = "kubectl" then
    match c.args with
    | [] => false
    | verb :: _ =>
      if (verb = "apply" ∨ verb = "rollout" ∨ verb = "scale" ∨ verb = "delete"
          ∨ verb = "annotate" ∨ verb = "patch") ∧ "--dry-run" ∉ c.args then true
      else false
  else false

/-- Number of abort-relevant commands issued before the dry-run gate has
passed: three gcloud auth commands, the cluster credentials command, and the
dry-run validation apply when a manifest was rendered. -/
def preGateCommandCount (tmpl : Bool) : Nat :=
  4 + (if tmpl then 1 else 0)

theorem mem_runCommandSeq {ok : Nat → Bool} {cs : List Cmd} {i : Nat} {c : Cmd}
    (h : c ∈ (runCommandSeq ok cs i).1) : c ∈ cs := by
  induction cs generalizing i with
  | nil => simp [runCommandSeq] at h
  | cons d ds ih =>
    rw [runCommandSeq] at h
    by_cases hok : ok i = true
    · rw [if_pos hok] at h
      simp only [List.mem_cons] at h ⊢
      rcases h with h | h
      · exact Or.inl h
      · exact Or.inr (ih h)
    · rw [if_neg hok] at h
      simp only [List.mem_singleton] at h
      simp [h]

theorem runCommandSeq_all_ok {ok : Nat → Bool} {cs : List Cmd} {i : Nat}
    (h : ∀ j, j < cs.length → ok (i + j) = true) :
    runCommandSeq ok cs i = (cs, i + cs.length, true) := by
  induction cs generalizing i with
  | nil => simp [runCommandSeq]
  | cons d ds ih =>
    have h0 : ok i = true := by simpa using h 0 (by simp)
    have harg : ∀ j, j < ds.length → ok (i + 1 + j) = true := fun j hj => by
      have := h (j + 1) (by simp only [List.length_cons]; omega)
      simpa [show i + (j + 1) = i + 1 + j by omega] using this
    have ih' := ih harg
    rw [runCommandSeq, if_pos h0, ih']
    simp only [List.length_cons, Prod.mk.injEq, true_and, and_true]
    omega

theorem runCommandSeq_completed {ok : Nat → Bool} {cs : List Cmd} {i : Nat}
    (h : (runCommandSeq ok cs i).2.2 = true) :
    ∀ j, j < cs.length → ok (i + j) = true := by
  induction cs generalizing i with
  | nil => intro j hj; simp at hj
  | cons d ds ih =>
    intro j hj
    rw [runCommandSeq] at h
    by_cases hok : ok i = true
    · rw [if_pos hok] at h
      simp only at h
      cases j with
      | zero => simpa using hok
      | succ j' =>
        have := ih h j' (by simp only [List.length_cons] at hj; omega)
        simpa [show i + (j' + 1) = i + 1 + j' by omega] using this
    · rw [if_neg hok] at h
      simp at h

theorem runCommandSeq_failed {ok : Nat → Bool} {cs : List Cmd} {i : Nat}
    (h : ∃ j, j < cs.length ∧ ok (i + j) = false) :
    (runCommandSeq ok cs i).2.2 = false := by
  rcases h with ⟨j, hj, hfalse⟩
  by_contra hcon
  have htrue : (runCommandSeq ok cs i).2.2 = true := by
    revert hcon
    cases (runCommandSeq ok cs i).2.2 <;> simp
  have := runCommandSeq_completed htrue j hj
  rw [this] at hfalse
  simp at hfalse

theorem gcloud_not_mutating {cred : GKEClusterInfo} {c : Cmd}
    (h : c ∈ gcloudAuthCmds cred) : c.isMutating = false := by
  simp only [gcloudAuthCmds, List.mem_cons, List.mem_singleton, List.not_mem_nil, or_false] at h
  rcases h with rfl | rfl | rfl <;> simp [Cmd.isMutating]

theorem getCredentials_not_mutating {cred : GKEClusterInfo} :
    (gcloudGetCredentialsCmd cred).isMutating = false := by
  simp [gcloudGetCredentialsCmd, Cmd.isMutating]

theorem dryRunApply_not_mutating {ns : String} :
    (Cmd.mk "kubectl" (kubectlApplyArgs ns ++ ["--dry-run"])).isMutating = false := by
  simp [Cmd.isMutating, kubectlApplyArgs]

theorem preGate_not_mutating {cred : GKEClusterInfo} {ns : String} {tmpl : Bool} {c : Cmd}
    (h : c ∈ preApplyCmds cred ns tmpl) :
    c.isMutating = false := by
  rw [preApplyCmds] at h
  rcases List.mem_append.mp h with h | h
  · rw [List.mem_singleton.mp h]
    exact getCredentials_not_mutating
  · cases tmpl with
    | false => simp at h
    | true =>
      simp only [if_pos] at h
      rw [List.mem_singleton.mp h]
      exact dryRunApply_not_mutating

/-- C1: for every configuration with the dry-run flag set, the reconciler
issues no mutating command at all — no real apply, rollout wait, service
patch, canary scale, or cleanup delete/annotate — regardless of the requested
action; only the gcloud setup commands and the dry-run validation apply may
run. -/
theorem dryRun_issues_no_mutating_command
    (p : Params) (cred : GKEClusterInfo) (tmpl : Bool) (name ns nameWithTrack : String)
    (ok : Nat → Bool) (svcType : String) (h : p.DryRun = true) :
    ∀ c ∈ (mainDeploy p cred tmpl name ns nameWithTrack ok svcType).1,
      c.isMutating = false := by
  intro c hc
  simp only [mainDeploy] at hc
  by_cases h0 : (runCommandSeq ok (gcloudAuthCmds cred) 0).2.2 = true
  · rw [if_pos h0] at hc
    by_cases hzr : cred.zone = "" ∧ cred.region = ""
    · rw [if_pos hzr] at hc
      exact gcloud_not_mutating (mem_runCommandSeq hc)
    · rw [if_neg hzr] at hc
      by_cases h1 : (runCommandSeq ok (preApplyCmds cred ns tmpl)
          (runCommandSeq ok (gcloudAuthCmds cred) 0).2.1).2.2 = true
      · rw [if_pos h1, if_pos h] at hc
        rcases List.mem_append.mp hc with hmem | hmem
        · exact gcloud_not_mutating (mem_runCommandSeq hmem)
        · exact preGate_not_mutating (mem_runCommandSeq hmem)
      · rw [if_neg h1] at hc
        rcases List.mem_append.mp hc with hmem | hmem
        · exact gcloud_not_mutating (mem_runCommandSeq hmem)
        · exact preGate_not_mutating (mem_runCommandSeq hmem)
  · rw [if_neg h0] at hc
    exact gcloud_not_mutating (mem_runCommandSeq hc)

theorem dryRun_issues_no_mutating_command_witness :
    Cmd.isMutating ⟨"gcloud", ["auth", "activate-service-account", "sa@example.iam", "--key-file", "/key-file.json"]⟩ = false :=
  dryRun_issues_no_mutating_command
    { DryRun := true, Action := "deploy-stable", Visibility := "private" }
    { saClientEmail := "sa@example.iam", zone := "europe-west1-b" }
    true "myapp" "mynamespace" "myapp-stable" (fun _ => true) ""
    rfl _ (by decide)

theorem mainDeploy_auth_failed {p : Params} {cred : GKEClusterInfo} {tmpl : Bool}
    {name ns nwt : String} {ok : Nat → Bool} {svcType : String}
    (h0 : (runCommandSeq ok (gcloudAuthCmds cred) 0).2.2 = false) :
    mainDeploy p cred tmpl name ns nwt ok svcType
      = ((runCommandSeq ok (gcloudAuthCmds cred) 0).1, Outcome.fatal) := by
  simp [mainDeploy, h0]

theorem mainDeploy_no_zone_region {p : Params} {cred : GKEClusterInfo} {tmpl : Bool}
    {name ns nwt : String} {ok : Nat → Bool} {svcType : String}
    (h0 : (runCommandSeq ok (gcloudAuthCmds cred) 0).2.2 = true)
    (hzr : cred.zone = "" ∧ cred.region = "") :
    mainDeploy p cred tmpl name ns nwt ok svcType
      = ((runCommandSeq ok (gcloudAuthCmds cred) 0).1, Outcome.fatal) := by
  simp [mainDeploy, h0, hzr]

theorem mainDeploy_preApply_failed {p : Params} {cred : GKEClusterInfo} {tmpl : Bool}
    {name ns nwt : String} {ok : Nat → Bool} {svcType : String}
    (h0 : (runCommandSeq ok (gcloudAuthCmds cred) 0).2.2 = true)
    (hzr : ¬(cred.zone = "" ∧ cred.region = ""))
    (h1 : (runCommandSeq ok (preApplyCmds cred ns tmpl)
      (runCommandSeq ok (gcloudAuthCmds cred) 0).2.1).2.2 = false) :
    mainDeploy p cred tmpl name ns nwt ok svcType
      = ((runCommandSeq ok (gcloudAuthCmds cred) 0).1
          ++ (runCommandSeq ok (preApplyCmds cred ns tmpl)
            (runCommandSeq ok (gcloudAuthCmds cred) 0).2.1).1, Outcome.fatal) := by
  simp [mainDeploy, h0, hzr, h1]

theorem mainDeploy_dryRun_stops {p : Params} {cred : GKEClusterInfo} {tmpl : Bool}
    {name ns nwt : String} {ok : Nat → Bool} {svcType : String}
    (h0 : (runCommandSeq ok (gcloudAuthCmds cred) 0).2.2 = true)
    (hzr : ¬(cred.zone = "" ∧ cred.region = ""))
    (h1 : (runCommandSeq ok (preApplyCmds cred ns tmpl)
      (runCommandSeq ok (gcloudAuthCmds cred) 0).2.1).2.2 = true)
    (hdry : p.DryRun = true) :
    mainDeploy p cred tmpl name ns nwt ok svcType
      = ((runCommandSeq ok (gcloudAuthCmds cred) 0).1
          ++ (runCommandSeq ok (preApplyCmds cred ns tmpl)
            (runCommandSeq ok (gcloudAuthCmds cred) 0).2.1).1, Outcome.completed) := by
  simp [mainDeploy, h0, hzr, h1, hdry]

theorem mainDeploy_enters_mutating {p : Params} {cred : GKEClusterInfo} {tmpl : Bool}
    {name ns nwt : String} {ok : Nat → Bool} {svcType : String}
    (h0 : (runCommandSeq ok (gcloudAuthCmds cred) 0).2.2 = true)
    (hzr : ¬(cred.zone = "" ∧ cred.region = ""))
    (h1 : (runCommandSeq ok (preApplyCmds cred ns tmpl)
      (runCommandSeq ok (gcloudAuthCmds cred) 0).2.1).2.2 = true)
    (hdry : p.DryRun = false) :
    mainDeploy p cred tmpl name ns nwt ok svcType
      = ((runCommandSeq ok (gcloudAuthCmds cred) 0).1
          ++ (runCommandSeq ok (preApplyCmds cred ns tmpl)
            (runCommandSeq ok (gcloudAuthCmds cred) 0).2.1).1
          ++ (mutatingPhase p tmpl name ns nwt ok svcType
            (runCommandSeq ok (preApplyCmds cred ns tmpl)
              (runCommandSeq ok (gcloudAuthCmds cred) 0).2.1).2.1).1,
        (mutatingPhase p tmpl name ns nwt ok svcType
          (runCommandSeq ok (preApplyCmds cred ns tmpl)
            (runCommandSeq ok (gcloudAuthCmds cred) 0).2.1).2.1).2) := by
  simp [mainDeploy, h0, hzr, h1, hdry]

theorem assist_tool {p : Params} {c : Cmd} (ha : c ∈ assistTroubleshooting p) :
    c.tool = "kubectl" ∨ c.tool = "grep" := by
  by_cases hA : p.Action = "deploy-canary"
  · simp only [assistTroubleshooting, hA, if_true, List.mem_append, List.mem_cons,
      List.mem_singleton, List.not_mem_nil, or_false, false_or] at ha
    rcases ha with (rfl | rfl) | rfl | rfl <;> simp
  · simp only [assistTroubleshooting, hA, if_false, List.mem_append, List.mem_cons,
      List.mem_singleton, List.not_mem_nil, List.append_nil, or_false, false_or] at ha
    rcases ha with rfl | rfl | rfl <;> simp

theorem assist_shape {p : Params} {c : Cmd} (ha : c ∈ assistTroubleshooting p) :
    c.tool = "grep" ∨ c.args.headD "" = "get" ∨ c.args.headD "" = "logs" := by
  by_cases hA : p.Action = "deploy-canary"
  · simp only [assistTroubleshooting, hA, if_true, List.mem_append, List.mem_cons,
      List.mem_singleton, List.not_mem_nil, or_false, false_or] at ha
    rcases ha with (rfl | rfl) | rfl | rfl <;> simp
  · simp only [assistTroubleshooting, hA, if_false, List.mem_append, List.mem_cons,
      List.mem_singleton, List.not_mem_nil, List.append_nil, or_false, false_or] at ha
    rcases ha with rfl | rfl | rfl <;> simp

theorem assist_not_mem_preGate {p : Params} {cred : GKEClusterInfo} {ns : String} {tmpl : Bool}
    {c : Cmd} (ha : c ∈ assistTroubleshooting p) :
    c ∉ gcloudAuthCmds cred ∧ c ∉ preApplyCmds cred ns tmpl := by
  have htool := assist_tool ha
  have hshape := assist_shape ha
  constructor
  · intro hb
    have hg : c.tool = "gcloud" := by
      simp only [gcloudAuthCmds, List.mem_cons, List.not_mem_nil, or_false] at hb
      rcases hb with rfl | rfl | rfl <;> rfl
    rcases htool with h | h <;> rw [hg] at h <;> simp at h
  · intro hb
    simp only [preApplyCmds, List.mem_append, List.mem_singleton] at hb
    rcases hb with rfl | hb
    · rcases htool with h | h <;> simp [gcloudGetCredentialsCmd] at h
    · cases tmpl with
      | false => simp at hb
      | true =>
        simp only [if_true] at hb
        rw [List.mem_singleton.mp hb] at hshape
        rcases hshape with h | h | h <;> simp [kubectlApplyArgs] at h

theorem mutatingPhase_all_ok {p : Params} {tmpl : Bool} {name ns nwt : String}
    {ok : Nat → Bool} {svcType : String} {i : Nat} (hok : ∀ j, ok j = true) :
    (mutatingPhase p tmpl name ns nwt ok svcType i).2 = Outcome.completed ∧
    ∀ c ∈ assistTroubleshooting p, c ∈ (mutatingPhase p tmpl name ns nwt ok svcType i).1 := by
  have hcomp : ∀ (cs : List Cmd) (k : Nat), runCommandSeq ok cs k = (cs, k + cs.length, true) :=
    fun cs k => runCommandSeq_all_ok (fun j _ => hok (k + j))
  have hpatch : ∀ k, (patchServiceIfRequired name ns ok svcType k).2.2 = true := by
    intro k
    by_cases hs : svcType = "NodePort" ∨ svcType = "LoadBalancer"
    · simp [patchServiceIfRequired, hs, hok k]
    · simp [patchServiceIfRequired, hs]
  have hpr : (if tmpl ∧ p.Visibility = "private" then patchServiceIfRequired name ns ok svcType i
      else ([], i, true)).2.2 = true := by
    by_cases hp : tmpl ∧ p.Visibility = "private"
    · rw [if_pos hp]; exact hpatch i
    · rw [if_neg hp]
  constructor
  · simp [mutatingPhase, hpr, hcomp]
  · intro c hc
    simp only [mutatingPhase, hpr, hcomp, if_true, eq_self_iff_true, List.mem_append]
    tauto

theorem gcloudAuthCmds_length {cred : GKEClusterInfo} : (gcloudAuthCmds cred).length = 3 := by
  simp [gcloudAuthCmds]

theorem preApplyCmds_length {cred : GKEClusterInfo} {ns : String} {tmpl : Bool} :
    (preApplyCmds cred ns tmpl).length = 1 + (if tmpl then 1 else 0) := by
  cases tmpl <;> simp [preApplyCmds]

/-- C9: a command failure before the mutating phase begins — a missing
zone/region, or a failing command among the gcloud setup commands or the
dry-run validation apply — terminates the run fatally without issuing a
single diagnostics command; conversely, whenever a diagnostics command made
it into the trace, every pre-gate command had succeeded and the dry-run flag
was off. -/
theorem preGate_failure_skips_diagnostics
    (p : Params) (cred : GKEClusterInfo) (tmpl : Bool) (name ns nameWithTrack : String)
    (ok : Nat → Bool) (svcType : String) :
    (((cred.zone = "" ∧ cred.region = "") ∨ (∃ i, i < preGateCommandCount tmpl ∧ ok i = false)) →
      (mainDeploy p cred tmpl name ns nameWithTrack ok svcType).2 = Outcome.fatal ∧
      ∀ c ∈ assistTroubleshooting p,
        c ∉ (mainDeploy p cred tmpl name ns nameWithTrack ok svcType).1) ∧
    ((∃ c ∈ assistTroubleshooting p,
        c ∈ (mainDeploy p cred tmpl name ns nameWithTrack ok svcType).1) →
      (∀ i, i < preGateCommandCount tmpl → ok i = true) ∧ p.DryRun = false) := by
  constructor
  · intro H
    by_cases h0 : (runCommandSeq ok (gcloudAuthCmds cred) 0).2.2 = true
    · have hall3 := runCommandSeq_completed h0
      have hr0 : runCommandSeq ok (gcloudAuthCmds cred) 0 = (gcloudAuthCmds cred, 3, true) := by
        have harg : ∀ j, j < (gcloudAuthCmds cred).length → ok (0 + j) = true :=
          fun j hj => by simpa using hall3 j hj
        have := runCommandSeq_all_ok harg
        simpa [gcloudAuthCmds_length] using this
      by_cases hzr : cred.zone = "" ∧ cred.region = ""
      · rw [mainDeploy_no_zone_region h0 hzr]
        refine ⟨rfl, fun c hc hcin => ?_⟩
        exact (@assist_not_mem_preGate p cred ns tmpl _ hc).1
          (mem_runCommandSeq hcin)
      · rcases H with hzr' | ⟨i, hi, hfalse⟩
        · exact absurd hzr' hzr
        · have hi3 : 3 ≤ i := by
            by_contra hlt
            have := hall3 i (by rw [gcloudAuthCmds_length]; omega)
            rw [Nat.zero_add] at this
            rw [this] at hfalse
            exact absurd hfalse (by simp)
          have h1 : (runCommandSeq ok (preApplyCmds cred ns tmpl)
              (runCommandSeq ok (gcloudAuthCmds cred) 0).2.1).2.2 = false := by
            rw [hr0]
            apply runCommandSeq_failed
            refine ⟨i - 3, ?_, ?_⟩
            · rw [preApplyCmds_length]
              rw [preGateCommandCount] at hi
              omega
            · rw [show 3 + (i - 3) = i by omega]
              exact hfalse
          rw [mainDeploy_preApply_failed h0 hzr h1]
          refine ⟨rfl, fun c hc hcin => ?_⟩
          have hdis := @assist_not_mem_preGate p cred ns tmpl _ hc
          rcases List.mem_append.mp hcin with hm | hm
          · exact hdis.1 (mem_runCommandSeq hm)
          · exact hdis.2 (mem_runCommandSeq hm)
    · have h0' : (runCommandSeq ok (gcloudAuthCmds cred) 0).2.2 = false := by
        revert h0; cases (runCommandSeq ok (gcloudAuthCmds cred) 0).2.2 <;> simp
      rw [mainDeploy_auth_failed h0']
      refine ⟨rfl, fun c hc hcin => ?_⟩
      exact (@assist_not_mem_preGate p cred ns tmpl _ hc).1
        (mem_runCommandSeq hcin)
  · rintro ⟨c, hcassist, hctrace⟩
    have hdis := @assist_not_mem_preGate p cred ns tmpl _ hcassist
    by_cases h0 : (runCommandSeq ok (gcloudAuthCmds cred) 0).2.2 = true
    · by_cases hzr : cred.zone = "" ∧ cred.region = ""
      · rw [mainDeploy_no_zone_region h0 hzr] at hctrace
        exact absurd (mem_runCommandSeq hctrace) hdis.1
      · by_cases h1 : (runCommandSeq ok (preApplyCmds cred ns tmpl)
            (runCommandSeq ok (gcloudAuthCmds cred) 0).2.1).2.2 = true
        · by_cases hdry : p.DryRun = true
          · rw [mainDeploy_dryRun_stops h0 hzr h1 hdry] at hctrace
            rcases List.mem_append.mp hctrace with hm | hm
            · exact absurd (mem_runCommandSeq hm) hdis.1
            · exact absurd (mem_runCommandSeq hm) hdis.2
          · have hdry' : p.DryRun = false := by
              revert hdry; cases p.DryRun <;> simp
            refine ⟨?_, hdry'⟩
            intro i hi
            have hall3 := runCommandSeq_completed h0
            have hr0 : runCommandSeq ok (gcloudAuthCmds cred) 0 = (gcloudAuthCmds cred, 3, true) := by
              have harg : ∀ j, j < (gcloudAuthCmds cred).length → ok (0 + j) = true :=
                fun j hj => by simpa using hall3 j hj
              have := runCommandSeq_all_ok harg
              simpa [gcloudAuthCmds_length] using this
            rw [hr0] at h1
            have hall1 := runCommandSeq_completed h1
            rcases Nat.lt_or_ge i 3 with hlt | hge
            · have := hall3 i (by rw [gcloudAuthCmds_length]; omega)
              simpa using this
            · have := hall1 (i - 3) (by
                rw [preApplyCmds_length]
                rw [preGateCommandCount] at hi
                omega)
              rw [show 3 + (i - 3) = i by omega] at this
              exact this
        · have h1' : (runCommandSeq ok (preApplyCmds cred ns tmpl)
              (runCommandSeq ok (gcloudAuthCmds cred) 0).2.1).2.2 = false := by
            revert h1
            cases (runCommandSeq ok (preApplyCmds cred ns tmpl)
              (runCommandSeq ok (gcloudAuthCmds cred) 0).2.1).2.2 <;> simp
          rw [mainDeploy_preApply_failed h0 hzr h1'] at hctrace
          rcases List.mem_append.mp hctrace with hm | hm
          · exact absurd (mem_runCommandSeq hm) hdis.1
          · exact absurd (mem_runCommandSeq hm) hdis.2
    · have h0' : (runCommandSeq ok (gcloudAuthCmds cred) 0).2.2 = false := by
        revert h0; cases (runCommandSeq ok (gcloudAuthCmds cred) 0).2.2 <;> simp
      rw [mainDeploy_auth_failed h0'] at hctrace
      exact absurd (mem_runCommandSeq hctrace) hdis.1

theorem preGate_failure_skips_diagnostics_witness :
    (mainDeploy { App := "myapp", Namespace := "mynamespace", Action := "deploy-stable" }
      { zone := "europe-west1-b" } true "myapp" "mynamespace" "myapp-stable"
      (fun i => decide (i ≠ 4)) "").2 = Outcome.fatal :=
  ((preGate_failure_skips_diagnostics
    { App := "myapp", Namespace := "mynamespace", Action := "deploy-stable" }
    { zone := "europe-west1-b" } true "myapp" "mynamespace" "myapp-stable"
    (fun i => decide (i ≠ 4)) "").1
    (Or.inr ⟨4, by decide, by decide⟩)).1

/-- C10: every non-dry-run invocation in which every command succeeds (and
the credential names a zone or region) completes normally and still runs the
diagnostics collector before exiting: the labelled object listing, the canary
container logs when the action is deploy-canary, and both event-stream
commands appear in the trace. -/
theorem successful_run_still_collects_diagnostics
    (p : Params) (cred : GKEClusterInfo) (tmpl : Bool) (name ns nameWithTrack : String)
    (ok : Nat → Bool) (svcType : String)
    (hdry : p.DryRun = false) (hok : ∀ j, ok j = true)
    (hzr : ¬(cred.zone = "" ∧ cred.region = "")) :
    (mainDeploy p cred tmpl name ns nameWithTrack ok svcType).2 = Outcome.completed ∧
    Cmd.mk "kubectl" ["get", "ing,svc,cm,secret,deploy,pdb,hpa,po,ep", "-l", "app=" ++ p.App, "-n", p.Namespace]
      ∈ (mainDeploy p cred tmpl name ns nameWithTrack ok svcType).1 ∧
    (p.Action = "deploy-canary" →
      Cmd.mk "kubectl" ["logs", "-l", "app=" ++ p.App ++ ",track=canary", "-n", p.Namespace, "-c", p.App]
        ∈ (mainDeploy p cred tmpl name ns nameWithTrack ok svcType).1) ∧
    Cmd.mk "kubectl" ["get", "events", "--sort-by=.metadata.creationTimestamp", "-n", p.Namespace]
      ∈ (mainDeploy p cred tmpl name ns nameWithTrack ok svcType).1 ∧
    Cmd.mk "grep" [p.App] ∈ (mainDeploy p cred tmpl name ns nameWithTrack ok svcType).1 := by
  have hcomp : ∀ (cs : List Cmd) (k : Nat), runCommandSeq ok cs k = (cs, k + cs.length, true) :=
    fun cs k => runCommandSeq_all_ok (fun j _ => hok (k + j))
  have h0 : (runCommandSeq ok (gcloudAuthCmds cred) 0).2.2 = true := by rw [hcomp]
  have h1 : (runCommandSeq ok (preApplyCmds cred ns tmpl)
      (runCommandSeq ok (gcloudAuthCmds cred) 0).2.1).2.2 = true := by rw [hcomp]
  have hmut := @mutatingPhase_all_ok p tmpl name ns nameWithTrack ok svcType
    (runCommandSeq ok (preApplyCmds cred ns tmpl)
      (runCommandSeq ok (gcloudAuthCmds cred) 0).2.1).2.1 hok
  rw [mainDeploy_enters_mutating h0 hzr h1 hdry]
  have hmemassist : ∀ c ∈ assistTroubleshooting p,
      c ∈ (runCommandSeq ok (gcloudAuthCmds cred) 0).1
        ++ (runCommandSeq ok (preApplyCmds cred ns tmpl)
          (runCommandSeq ok (gcloudAuthCmds cred) 0).2.1).1
        ++ (mutatingPhase p tmpl name ns nameWithTrack ok svcType
          (runCommandSeq ok (preApplyCmds cred ns tmpl)
            (runCommandSeq ok (gcloudAuthCmds cred) 0).2.1).2.1).1 := by
    intro c hc
    exact List.mem_append_right _ (hmut.2 c hc)
  refine ⟨hmut.1, ?_, ?_, ?_, ?_⟩
  · exact hmemassist _ (by simp [assistTroubleshooting])
  · intro hA
    exact hmemassist _ (by simp [assistTroubleshooting, hA])
  · exact hmemassist _ (by simp [assistTroubleshooting])
  · exact hmemassist _ (by simp [assistTroubleshooting])

theorem successful_run_still_collects_diagnostics_witness :
    (mainDeploy { App := "myapp", Namespace := "mynamespace", Action := "deploy-canary" }
      { region := "europe-west1" } true "myapp" "mynamespace" "myapp-canary"
      (fun _ => true) "ClusterIP").2 = Outcome.completed ∧
    Cmd.mk "kubectl" ["logs", "-l", "app=myapp,track=canary", "-n", "mynamespace", "-c", "myapp"]
      ∈ (mainDeploy { App := "myapp", Namespace := "mynamespace", Action := "deploy-canary" }
        { region := "europe-west1" } true "myapp" "mynamespace" "myapp-canary"
        (fun _ => true) "ClusterIP").1 := by
  have h := successful_run_still_collects_diagnostics
    { App := "myapp", Namespace := "mynamespace", Action := "deploy-canary" }
    { region := "europe-west1" } true "myapp" "mynamespace" "myapp-canary"
    (fun _ => true) "ClusterIP" rfl (fun _ => rfl) (by simp)
  exact ⟨h.1, h.2.2.1 rfl⟩

/-- The first of the four cloudflare annotation-removal commands (the dns
one); used as the representative of the annotation strip. -/
def cloudflareDnsAnnotateCmd (name ns : String) : Cmd :=
  ⟨"kubectl", ["annotate", "svc", name, "-n", ns, "estafette.io/cloudflare-dns-"]⟩

theorem annotate_ne_scale {name ns n2 : String} {r : Int} :
    cloudflareDnsAnnotateCmd name ns ≠ scaleCanaryDeployment n2 ns r := by
  simp [cloudflareDnsAnnotateCmd, scaleCanaryDeployment, Cmd.mk.injEq]

theorem annotate_not_mem_deleteResources {name ns n2 : String} :
    cloudflareDnsAnnotateCmd name ns ∉ deleteResourcesForTypeSwitch n2 ns := by
  simp [cloudflareDnsAnnotateCmd, deleteResourcesForTypeSwitch, Cmd.mk.injEq]

theorem annotate_not_mem_deleteConfigs {p : Params} {name ns n2 : String} :
    cloudflareDnsAnnotateCmd name ns ∉ deleteConfigsForParamsChange p n2 ns := by
  unfold deleteConfigsForParamsChange
  split <;> simp [cloudflareDnsAnnotateCmd, Cmd.mk.injEq]

theorem annotate_not_mem_deleteSecrets {p : Params} {name ns n2 : String} :
    cloudflareDnsAnnotateCmd name ns ∉ deleteSecretsForParamsChange p n2 ns := by
  unfold deleteSecretsForParamsChange
  split <;> simp [cloudflareDnsAnnotateCmd, Cmd.mk.injEq]

theorem annotate_not_mem_deleteIngress {p : Params} {name ns n2 : String} :
    cloudflareDnsAnnotateCmd name ns ∉ deleteIngressForVisibilityChange p n2 ns := by
  unfold deleteIngressForVisibilityChange
  split <;> simp [cloudflareDnsAnnotateCmd, Cmd.mk.injEq]

theorem annotate_mem_removeAnnotations {p : Params} {name ns : String} :
    cloudflareDnsAnnotateCmd name ns ∈ removeEstafetteCloudflareAnnotations p name ns
      ↔ (p.Visibility = "private" ∨ p.Visibility = "iap") := by
  unfold removeEstafetteCloudflareAnnotations
  split_ifs with hv
  · simp [cloudflareDnsAnnotateCmd, hv]
  · simp [hv]

/-- C2 counterexample: for the explicit deploy-stable configuration with
visibility public the cleanup issues no annotate command, and for visibility
private it does — the opposite of the claim that the legacy exposure
annotations are stripped if and only if visibility is public. -/
theorem cloudflare_annotations_claim_counterexample :
    ({ Action := "deploy-stable", Visibility := "public" } : Params).Visibility = "public" ∧
    cloudflareDnsAnnotateCmd "myapp" "mynamespace"
      ∉ cleanupCommands { Action := "deploy-stable", Visibility := "public" } "myapp" "mynamespace" ∧
    ({ Action := "deploy-stable", Visibility := "private" } : Params).Visibility ≠ "public" ∧
    cloudflareDnsAnnotateCmd "myapp" "mynamespace"
      ∈ cleanupCommands { Action := "deploy-stable", Visibility := "private" } "myapp" "mynamespace" := by
  decide

/-- C2 amended: for the actions deploy-stable and deploy-simple, the cleanup
strips the estafette.io/cloudflare annotations from the service if and only
if the resolved visibility is private or iap; for visibility public the
annotations are left in place. -/
theorem cloudflare_annotations_strip_iff_ingress_visibility
    (p : Params) (name ns : String)
    (hact : p.Action = "deploy-stable" ∨ p.Action = "deploy-simple") :
    (cloudflareDnsAnnotateCmd name ns ∈ cleanupCommands p name ns
      ↔ (p.Visibility = "private" ∨ p.Visibility = "iap")) := by
  rcases hact with hA | hA
  · have hrw : cleanupCommands p name ns
        = [scaleCanaryDeployment name ns 0]
          ++ deleteResourcesForTypeSwitch name ns
          ++ deleteConfigsForParamsChange p (name ++ "-stable") ns
          ++ deleteSecretsForParamsChange p (name ++ "-stable") ns
          ++ deleteIngressForVisibilityChange p name ns
          ++ removeEstafetteCloudflareAnnotations p name ns := by
      simp [cleanupCommands, hA]
    rw [hrw]
    simp only [List.mem_append]
    simp [annotate_ne_scale, annotate_not_mem_deleteResources,
      annotate_not_mem_deleteConfigs, annotate_not_mem_deleteSecrets,
      annotate_not_mem_deleteIngress, annotate_mem_removeAnnotations]
  · have hrw : cleanupCommands p name ns
        = deleteResourcesForTypeSwitch (name ++ "-canary") ns
          ++ deleteResourcesForTypeSwitch (name ++ "-stable") ns
          ++ deleteConfigsForParamsChange p name ns
          ++ deleteSecretsForParamsChange p name ns
          ++ deleteIngressForVisibilityChange p name ns
          ++ removeEstafetteCloudflareAnnotations p name ns := by
      simp [cleanupCommands, hA]
    rw [hrw]
    simp only [List.mem_append]
    simp [annotate_not_mem_deleteResources,
      annotate_not_mem_deleteConfigs, annotate_not_mem_deleteSecrets,
      annotate_not_mem_deleteIngress, annotate_mem_removeAnnotations]

theorem cloudflare_annotations_strip_witness :
    cloudflareDnsAnnotateCmd "myapp" "mynamespace"
      ∈ cleanupCommands { Action := "deploy-simple", Visibility := "iap" } "myapp" "mynamespace" :=
  (cloudflare_annotations_strip_iff_ingress_visibility
    { Action := "deploy-simple", Visibility := "iap" } "myapp" "mynamespace"
    (Or.inr rfl)).mpr (Or.inr rfl)

/-- Single-field flips of the baseline: identity and string fields set to
empty (from TestValidateRequiredProperties). -/
def validationFlipsIdentity : List Params :=
  [{ validParams with App := "" },
   { validParams with Namespace := "" },
   { validParams with Credentials := "" },
   { validParams with Container := { validParams.Container with ImageRepository := "" } },
   { validParams with Container := { validParams.Container with ImageName := "" } },
   { validParams with Container := { validParams.Container with ImageTag := "" } },
   { validParams with Visibility := "" },
   { validParams with Basepath := "" },
   { validParams with RollingUpdate := { validParams.RollingUpdate with MaxSurge := "" } },
   { validParams with RollingUpdate := { validParams.RollingUpdate with MaxUnavailable := "" } }]

/-- Single-field flips of the baseline: container resources, port, hosts and
replica counts set to empty or zero-or-less. -/
def validationFlipsResources : List Params :=
  [{ validParams with Container := { validParams.Container with CPU := { validParams.Container.CPU with Request := "" } } },
   { validParams with Container := { validParams.Container with CPU := { validParams.Container.CPU with Limit := "" } } },
   { validParams with Container := { validParams.Container with Memory := { validParams.Container.Memory with Request := "" } } },
   { validParams with Container := { validParams.Container with Memory := { validParams.Container.Memory with Limit := "" } } },
   { validParams with Hosts := [] },
   { validParams with Container := { validParams.Container with Port := 0 } },
   { validParams with Container := { validParams.Container with Port := -1 } },
   { validParams with Autoscale := { validParams.Autoscale with MinReplicas := 0 } },
   { validParams with Autoscale := { validParams.Autoscale with MinReplicas := -1 } },
   { validParams with Autoscale := { validParams.Autoscale with MaxReplicas := 0 } },
   { validParams with Autoscale := { validParams.Autoscale with MaxReplicas := -1 } }]

/-- Single-field flips of the baseline: autoscale CPU percentage and probe
fields set to empty or zero-or-less. -/
def validationFlipsProbes : List Params :=
  [{ validParams with Autoscale := { validParams.Autoscale with CPUPercentage := 0 } },
   { validParams with Autoscale := { validParams.Autoscale with CPUPercentage := -1 } },
   { validParams with Container := { validParams.Container with LivenessProbe := { validParams.Container.LivenessProbe with Path := "" } } },
   { validParams with Container := { validParams.Container with LivenessProbe := { validParams.Container.LivenessProbe with InitialDelaySeconds := 0 } } },
   { validParams with Container := { validParams.Container with LivenessProbe := { validParams.Container.LivenessProbe with InitialDelaySeconds := -1 } } },
   { validParams with Container := { validParams.Container with LivenessProbe := { validParams.Container.LivenessProbe with TimeoutSeconds := 0 } } },
   { validParams with Container := { validParams.Container with LivenessProbe := { validParams.Container.LivenessProbe with TimeoutSeconds := -1 } } },
   { validParams with Container := { validParams.Container with ReadinessProbe := { validParams.Container.ReadinessProbe with Path := "" } } },
   { validParams with Container := { validParams.Container with ReadinessProbe := { validParams.Container.ReadinessProbe with TimeoutSeconds := 0 } } },
   { validParams with Container := { validParams.Container with ReadinessProbe := { validParams.Container.ReadinessProbe with TimeoutSeconds := -1 } } }]

/-- Single-field flips of the baseline: metrics fields (with scraping on, as
in the baseline) and sidecar fields set to empty or zero-or-less. -/
def validationFlipsMetricsSidecar : List Params :=
  [{ validParams with Container := { validParams.Container with Metrics := { validParams.Container.Metrics with Path := "" } } },
   { validParams with Container := { validParams.Container with Metrics := { validParams.Container.Metrics with Port := 0 } } },
   { validParams with Container := { validParams.Container with Metrics := { validParams.Container.Metrics with Port := -1 } } },
   { validParams with Container := { validParams.Container with Metrics := { validParams.Container.Metrics with Scrape := "" } } },
   { validParams with Sidecar := { validParams.Sidecar with «Type» := "" } },
   { validParams with Sidecar := { validParams.Sidecar with Image := "" } },
   { validParams with Sidecar := { validParams.Sidecar with CPU := { validParams.Sidecar.CPU with Request := "" } } },
   { validParams with Sidecar := { validParams.Sidecar with CPU := { validParams.Sidecar.CPU with Limit := "" } } },
   { validParams with Sidecar := { validParams.Sidecar with Memory := { validParams.Sidecar.Memory with Request := "" } } },
   { validParams with Sidecar := { validParams.Sidecar with Memory := { validParams.Sidecar.Memory with Limit := "" } } }]

/-- Every configuration obtained from the baseline by flipping one required
field to empty (strings/lists) or zero-or-less (numerics). -/
def validationSingleFieldFlips : List Params :=
  validationFlipsIdentity ++ validationFlipsResources
    ++ validationFlipsProbes ++ validationFlipsMetricsSidecar

/-- C3: the fully-valid baseline validates with ok and an empty error list,
and every single-field flip to empty or zero-or-less yields ok=false with at
least one error. -/
theorem validation_is_exhaustive :
    validParams.ValidateRequiredProperties = (true, []) ∧
    ∀ q ∈ validationSingleFieldFlips,
      q.ValidateRequiredProperties.1 = false ∧ q.ValidateRequiredProperties.2 ≠ [] := by
  decide

theorem validate_fst_eq_isEmpty {p : Params} :
    p.ValidateRequiredProperties.1 = p.ValidateRequiredProperties.2.isEmpty := rfl

/-- C6: metrics validation is conditional on the scrape literal — with scrape
"false" an empty path and a zero port both validate clean; with scrape "true"
an empty path or a zero-or-less port fails; and any scrape value other than
the case-sensitive literals "true"/"false" (including the empty string, which
is covered by taking s = "") fails. -/
theorem metrics_validation_conditional_on_scrape :
    (({ validParams with Container := { validParams.Container with
        Metrics := { Scrape := "false", Path := "", Port := 0 } } } : Params).ValidateRequiredProperties
      = (true, [])) ∧
    (({ validParams with Container := { validParams.Container with
        Metrics := { Scrape := "true", Path := "", Port := 5000 } } } : Params).ValidateRequiredProperties.1
      = false) ∧
    (({ validParams with Container := { validParams.Container with
        Metrics := { Scrape := "true", Path := "/metrics", Port := 0 } } } : Params).ValidateRequiredProperties.1
      = false) ∧
    (({ validParams with Container := { validParams.Container with
        Metrics := { Scrape := "true", Path := "/metrics", Port := -1 } } } : Params).ValidateRequiredProperties.1
      = false) ∧
    ∀ s : String, s ≠ "true" → s ≠ "false" →
      ({ validParams with Container := { validParams.Container with
        Metrics := { validParams.Container.Metrics with Scrape := s } } } : Params).ValidateRequiredProperties.1
        = false := by
  refine ⟨by decide, by decide, by decide, by decide, ?_⟩
  intro s h1 h2
  simp [Params.ValidateRequiredProperties, validateIdentityErrors, validateResourceErrors,
    validateProbeAndMetricsErrors, validateSidecarAndRolloutErrors, validParams, h1, h2]

theorem metrics_validation_conditional_on_scrape_witness :
    ({ validParams with Container := { validParams.Container with
      Metrics := { validParams.Container.Metrics with Scrape := "yessir" } } } : Params).ValidateRequiredProperties.1
      = false :=
  metrics_validation_conditional_on_scrape.2.2.2.2 "yessir" (by decide) (by decide)

theorem defaultCPUPair_cases (dr dl : String) (c : CPUParams) :
    (c.Request = "" ∧ c.Limit = "" → defaultCPUPair dr dl c = { Request := dr, Limit := dl }) ∧
    (c.Request = "" ∧ c.Limit ≠ "" → defaultCPUPair dr dl c = { Request := c.Limit, Limit := c.Limit }) ∧
    (c.Request ≠ "" ∧ c.Limit = "" → defaultCPUPair dr dl c = { Request := c.Request, Limit := c.Request }) ∧
    (c.Request ≠ "" ∧ c.Limit ≠ "" → defaultCPUPair dr dl c = c) := by
  refine ⟨?_, ?_, ?_, ?_⟩ <;> rintro ⟨h1, h2⟩ <;> simp [defaultCPUPair, h1, h2]

theorem defaultMemoryPair_cases (dr dl : String) (m : MemoryParams) :
    (m.Request = "" ∧ m.Limit = "" → defaultMemoryPair dr dl m = { Request := dr, Limit := dl }) ∧
    (m.Request = "" ∧ m.Limit ≠ "" → defaultMemoryPair dr dl m = { Request := m.Limit, Limit := m.Limit }) ∧
    (m.Request ≠ "" ∧ m.Limit = "" → defaultMemoryPair dr dl m = { Request := m.Request, Limit := m.Request }) ∧
    (m.Request ≠ "" ∧ m.Limit ≠ "" → defaultMemoryPair dr dl m = m) := by
  refine ⟨?_, ?_, ?_, ?_⟩ <;> rintro ⟨h1, h2⟩ <;> simp [defaultMemoryPair, h1, h2]

/-- C5: for the container and sidecar CPU/memory request-limit pairs,
defaulting is cross-fallback — a set limit fills an empty request and vice
versa, two empty sides resolve to the fixed constants (container CPU
100m/125m, container memory 128Mi/128Mi, sidecar CPU 10m/50m, sidecar memory
10Mi/50Mi), and two set sides are left unchanged. -/
theorem resource_pairs_cross_fallback (p : Params)
    (appLabel buildVersion releaseName : String) (estafetteLabels : List (String × String)) :
    ((p.Container.CPU.Request = "" ∧ p.Container.CPU.Limit = "" →
        (p.SetDefaults appLabel buildVersion releaseName estafetteLabels).Container.CPU
          = { Request := "100m", Limit := "125m" }) ∧
      (p.Container.CPU.Request = "" ∧ p.Container.CPU.Limit ≠ "" →
        (p.SetDefaults appLabel buildVersion releaseName estafetteLabels).Container.CPU
          = { Request := p.Container.CPU.Limit, Limit := p.Container.CPU.Limit }) ∧
      (p.Container.CPU.Request ≠ "" ∧ p.Container.CPU.Limit = "" →
        (p.SetDefaults appLabel buildVersion releaseName estafetteLabels).Container.CPU
          = { Request := p.Container.CPU.Request, Limit := p.Container.CPU.Request }) ∧
      (p.Container.CPU.Request ≠ "" ∧ p.Container.CPU.Limit ≠ "" →
        (p.SetDefaults appLabel buildVersion releaseName estafetteLabels).Container.CPU
          = p.Container.CPU)) ∧
    ((p.Container.Memory.Request = "" ∧ p.Container.Memory.Limit = "" →
        (p.SetDefaults appLabel buildVersion releaseName estafetteLabels).Container.Memory
          = { Request := "128Mi", Limit := "128Mi" }) ∧
      (p.Container.Memory.Request = "" ∧ p.Container.Memory.Limit ≠ "" →
        (p.SetDefaults appLabel buildVersion releaseName estafetteLabels).Container.Memory
          = { Request := p.Container.Memory.Limit, Limit := p.Container.Memory.Limit }) ∧
      (p.Container.Memory.Request ≠ "" ∧ p.Container.Memory.Limit = "" →
        (p.SetDefaults appLabel buildVersion releaseName estafetteLabels).Container.Memory
          = { Request := p.Container.Memory.Request, Limit := p.Container.Memory.Request }) ∧
      (p.Container.Memory.Request ≠ "" ∧ p.Container.Memory.Limit ≠ "" →
        (p.SetDefaults appLabel buildVersion releaseName estafetteLabels).Container.Memory
          = p.Container.Memory)) ∧
    ((p.Sidecar.CPU.Request = "" ∧ p.Sidecar.CPU.Limit = "" →
        (p.SetDefaults appLabel buildVersion releaseName estafetteLabels).Sidecar.CPU
          = { Request := "10m", Limit := "50m" }) ∧
      (p.Sidecar.CPU.Request = "" ∧ p.Sidecar.CPU.Limit ≠ "" →
        (p.SetDefaults appLabel buildVersion releaseName estafetteLabels).Sidecar.CPU
          = { Request := p.Sidecar.CPU.Limit, Limit := p.Sidecar.CPU.Limit }) ∧
      (p.Sidecar.CPU.Request ≠ "" ∧ p.Sidecar.CPU.Limit = "" →
        (p.SetDefaults appLabel buildVersion releaseName estafetteLabels).Sidecar.CPU
          = { Request := p.Sidecar.CPU.Request, Limit := p.Sidecar.CPU.Request }) ∧
      (p.Sidecar.CPU.Request ≠ "" ∧ p.Sidecar.CPU.Limit ≠ "" →
        (p.SetDefaults appLabel buildVersion releaseName estafetteLabels).Sidecar.CPU
          = p.Sidecar.CPU)) ∧
    ((p.Sidecar.Memory.Request = "" ∧ p.Sidecar.Memory.Limit = "" →
        (p.SetDefaults appLabel buildVersion releaseName estafetteLabels).Sidecar.Memory
          = { Request := "10Mi", Limit := "50Mi" }) ∧
      (p.Sidecar.Memory.Request = "" ∧ p.Sidecar.Memory.Limit ≠ "" →
        (p.SetDefaults appLabel buildVersion releaseName estafetteLabels).Sidecar.Memory
          = { Request := p.Sidecar.Memory.Limit, Limit := p.Sidecar.Memory.Limit }) ∧
      (p.Sidecar.Memory.Request ≠ "" ∧ p.Sidecar.Memory.Limit = "" →
        (p.SetDefaults appLabel buildVersion releaseName estafetteLabels).Sidecar.Memory
          = { Request := p.Sidecar.Memory.Request, Limit := p.Sidecar.Memory.Request }) ∧
      (p.Sidecar.Memory.Request ≠ "" ∧ p.Sidecar.Memory.Limit ≠ "" →
        (p.SetDefaults appLabel buildVersion releaseName estafetteLabels).Sidecar.Memory
          = p.Sidecar.Memory)) := by
  have hc : (p.SetDefaults appLabel buildVersion releaseName estafetteLabels).Container.CPU
      = defaultCPUPair "100m" "125m" p.Container.CPU := rfl
  have hm : (p.SetDefaults appLabel buildVersion releaseName estafetteLabels).Container.Memory
      = defaultMemoryPair "128Mi" "128Mi" p.Container.Memory := rfl
  have hsc : (p.SetDefaults appLabel buildVersion releaseName estafetteLabels).Sidecar.CPU
      = defaultCPUPair "10m" "50m" p.Sidecar.CPU := rfl
  have hsm : (p.SetDefaults appLabel buildVersion releaseName estafetteLabels).Sidecar.Memory
      = defaultMemoryPair "10Mi" "50Mi" p.Sidecar.Memory := rfl
  rw [hc, hm, hsc, hsm]
  exact ⟨defaultCPUPair_cases "100m" "125m" p.Container.CPU,
    defaultMemoryPair_cases "128Mi" "128Mi" p.Container.Memory,
    defaultCPUPair_cases "10m" "50m" p.Sidecar.CPU,
    defaultMemoryPair_cases "10Mi" "50Mi" p.Sidecar.Memory⟩

theorem resource_pairs_cross_fallback_witness :
    (Params.SetDefaults { Container := { CPU := { Request := "", Limit := "300m" } } } "" "" "" []).Container.CPU
      = { Request := "300m", Limit := "300m" } :=
  (resource_pairs_cross_fallback { Container := { CPU := { Request := "", Limit := "300m" } } }
    "" "" "" []).1.2.1 ⟨rfl, by decide⟩

theorem lookup_setLabel (k v : String) (l : List (String × String)) :
    List.lookup k (setLabel k v l) = some v := by
  induction l with
  | nil => simp [setLabel, List.lookup]
  | cons kv rest ih =>
    obtain ⟨k', v'⟩ := kv
    by_cases hk : k' = k
    · subst hk
      simp [setLabel, List.lookup]
    · have hbeq : (k == k') = false := by
        simp only [beq_eq_false_iff_ne, ne_eq]
        exact fun h => hk h.symm
      simp [setLabel, hk, List.lookup, hbeq, ih]

/-- C4: every field with a documented default resolves to its constant (or
seed) when empty/zero and is left unchanged when set; the single exception is
the app label key, which is overwritten to the resolved application name
whenever that name is non-empty. Each conjunct states the resolved field as
the empty-test conditional of the raw field. -/
theorem setDefaults_documented_field_defaults (p : Params)
    (appLabel buildVersion releaseName : String) (estafetteLabels : List (String × String)) :
    ((p.SetDefaults appLabel buildVersion releaseName estafetteLabels).Visibility
      = if p.Visibility = "" then "private" else p.Visibility) ∧
    ((p.SetDefaults appLabel buildVersion releaseName estafetteLabels).Basepath
      = if p.Basepath = "" then "/" else p.Basepath) ∧
    ((p.SetDefaults appLabel buildVersion releaseName estafetteLabels).Container.Port
      = if p.Container.Port = 0 then 5000 else p.Container.Port) ∧
    ((p.SetDefaults appLabel buildVersion releaseName estafetteLabels).Container.LivenessProbe.Path
      = if p.Container.LivenessProbe.Path = "" then "/liveness" else p.Container.LivenessProbe.Path) ∧
    ((p.SetDefaults appLabel buildVersion releaseName estafetteLabels).Container.LivenessProbe.InitialDelaySeconds
      = if p.Container.LivenessProbe.InitialDelaySeconds = 0 then 30
        else p.Container.LivenessProbe.InitialDelaySeconds) ∧
    ((p.SetDefaults appLabel buildVersion releaseName estafetteLabels).Container.LivenessProbe.TimeoutSeconds
      = if p.Container.LivenessProbe.TimeoutSeconds = 0 then 1
        else p.Container.LivenessProbe.TimeoutSeconds) ∧
    ((p.SetDefaults appLabel buildVersion releaseName estafetteLabels).Container.ReadinessProbe.Path
      = if p.Container.ReadinessProbe.Path = "" then "/readiness" else p.Container.ReadinessProbe.Path) ∧
    ((p.SetDefaults appLabel buildVersion releaseName estafetteLabels).Container.ReadinessProbe.InitialDelaySeconds
      = p.Container.ReadinessProbe.InitialDelaySeconds) ∧
    ((p.SetDefaults appLabel buildVersion releaseName estafetteLabels).Container.ReadinessProbe.TimeoutSeconds
      = if p.Container.ReadinessProbe.TimeoutSeconds = 0 then 1
        else p.Container.ReadinessProbe.TimeoutSeconds) ∧
    ((p.SetDefaults appLabel buildVersion releaseName estafetteLabels).Container.Metrics.Scrape
      = if p.Container.Metrics.Scrape = "" then "true" else p.Container.Metrics.Scrape) ∧
    ((p.SetDefaults appLabel buildVersion releaseName estafetteLabels).Container.Metrics.Path
      = if p.Container.Metrics.Path = "" then "/metrics" else p.Container.Metrics.Path) ∧
    ((p.SetDefaults appLabel buildVersion releaseName estafetteLabels).Container.Metrics.Port
      = if p.Container.Metrics.Port = 0
        then (p.SetDefaults appLabel buildVersion releaseName estafetteLabels).Container.Port
        else p.Container.Metrics.Port) ∧
    ((p.SetDefaults appLabel buildVersion releaseName estafetteLabels).Autoscale.MinReplicas
      = if p.Autoscale.MinReplicas = 0 then 3 else p.Autoscale.MinReplicas) ∧
    ((p.SetDefaults appLabel buildVersion releaseName estafetteLabels).Autoscale.MaxReplicas
      = if p.Autoscale.MaxReplicas = 0 then 100 else p.Autoscale.MaxReplicas) ∧
    ((p.SetDefaults appLabel buildVersion releaseName estafetteLabels).Autoscale.CPUPercentage
      = if p.Autoscale.CPUPercentage = 0 then 80 else p.Autoscale.CPUPercentage) ∧
    ((p.SetDefaults appLabel buildVersion releaseName estafetteLabels).RollingUpdate.MaxSurge
      = if p.RollingUpdate.MaxSurge = "" then "25%" else p.RollingUpdate.MaxSurge) ∧
    ((p.SetDefaults appLabel buildVersion releaseName estafetteLabels).RollingUpdate.MaxUnavailable
      = if p.RollingUpdate.MaxUnavailable = "" then "25%" else p.RollingUpdate.MaxUnavailable) ∧
    ((p.SetDefaults appLabel buildVersion releaseName estafetteLabels).Sidecar.«Type»
      = if p.Sidecar.«Type» = "" then "openresty" else p.Sidecar.«Type») ∧
    ((p.SetDefaults appLabel buildVersion releaseName estafetteLabels).Sidecar.Image
      = if p.Sidecar.Image = ""
        then "estafette/openresty-sidecar:1.13.6.1-alpine" else p.Sidecar.Image) ∧
    ((p.SetDefaults appLabel buildVersion releaseName estafetteLabels).Configs.MountPath
      = if p.Configs.MountPath = "" then "/configs" else p.Configs.MountPath) ∧
    ((p.SetDefaults appLabel buildVersion releaseName estafetteLabels).Secrets.MountPath
      = if p.Secrets.MountPath = "" then "/secrets" else p.Secrets.MountPath) ∧
    ((p.SetDefaults appLabel buildVersion releaseName estafetteLabels).TrustedIPRanges
      = if p.TrustedIPRanges = [] then cloudflareIPRanges else p.TrustedIPRanges) ∧
    ((p.SetDefaults appLabel buildVersion releaseName estafetteLabels).App
      = if p.App = "" then appLabel else p.App) ∧
    ((p.SetDefaults appLabel buildVersion releaseName estafetteLabels).Container.ImageName
      = if p.Container.ImageName = ""
        then (p.SetDefaults appLabel buildVersion releaseName estafetteLabels).App
        else p.Container.ImageName) ∧
    ((p.SetDefaults appLabel buildVersion releaseName estafetteLabels).Container.ImageTag
      = if p.Container.ImageTag = "" then buildVersion else p.Container.ImageTag) ∧
    ((p.SetDefaults appLabel buildVersion releaseName estafetteLabels).Credentials
      = if p.Credentials = "" then "gke-" ++ releaseName else p.Credentials) ∧
    ((if p.App = "" then appLabel else p.App) ≠ "" →
      List.lookup "app" (p.SetDefaults appLabel buildVersion releaseName estafetteLabels).Labels
        = some (if p.App = "" then appLabel else p.App)) := by
  refine ⟨rfl, rfl, rfl, rfl, rfl, rfl, rfl, rfl, rfl, rfl, rfl, rfl, rfl, rfl, rfl, rfl,
    rfl, rfl, rfl, rfl, rfl, rfl, rfl, rfl, rfl, rfl, ?_⟩
  intro h
  show List.lookup "app"
      (if (if p.App = "" then appLabel else p.App) = ""
        then (if p.Labels = [] then estafetteLabels else p.Labels)
        else setLabel "app" (if p.App = "" then appLabel else p.App)
          (if p.Labels = [] then estafetteLabels else p.Labels))
    = some (if p.App = "" then appLabel else p.App)
  rw [if_neg h]
  exact lookup_setLabel "app" _ _

theorem setDefaults_documented_field_defaults_witness :
    List.lookup "app"
      (Params.SetDefaults { Labels := [("team", "yourteam")] } "myapp" "" "" []).Labels
      = some "myapp" := by
  have h := (setDefaults_documented_field_defaults
    { Labels := [("team", "yourteam")] } "myapp" "" ""
    []).2.2.2.2.2.2.2.2.2.2.2.2.2.2.2.2.2.2.2.2.2.2.2.2.2.2
  simpa using h (by decide)

theorem mem_overrideTemplate_iff {l : List String} {o x : String}
    (h : baseFilename o ≠ baseFilename x) :
    x ∈ overrideTemplate l o ↔ x ∈ l := by
  unfold overrideTemplate
  split_ifs with hany
  · constructor
    · intro hx
      rcases List.mem_map.mp hx with ⟨y, hy, hxy⟩
      by_cases hb : baseFilename y = baseFilename o
      · rw [if_pos hb] at hxy
        subst hxy
        exact absurd rfl h
      · rw [if_neg hb] at hxy
        subst hxy
        exact hy
    · intro hx
      refine List.mem_map.mpr ⟨x, hx, ?_⟩
      rw [if_neg (fun he => h he.symm)]
  · rw [List.mem_append, List.mem_singleton]
    constructor
    · rintro (hx | rfl)
      · exact hx
      · exact absurd rfl h
    · exact Or.inl

theorem mem_foldl_override {ovs : List String} {l : List String} {x : String}
    (h : ∀ o ∈ ovs, baseFilename o ≠ baseFilename x) :
    x ∈ ovs.foldl overrideTemplate l ↔ x ∈ l := by
  induction ovs generalizing l with
  | nil => simp
  | cons o os ih =>
    simp only [List.foldl_cons]
    rw [ih (fun o' ho' => h o' (List.mem_cons_of_mem _ ho')),
      mem_overrideTemplate_iff (h o (List.mem_cons_self _ _))]

theorem mem_ite_singleton {α : Type} {c : Prop} [Decidable c] {x a : α} :
    x ∈ (if c then [a] else ([] : List α)) ↔ c ∧ x = a := by
  split_ifs with h <;> simp [h]

/-- C7 counterexample: a configuration with visibility private whose
local-manifest list overrides ingress.yaml — the built-in ingress template is
replaced, so the composed set does not contain it even though visibility is
private. -/
theorem ingress_template_iff_counterexample :
    ({ Visibility := "private", LocalManifests := ["./gke/ingress.yaml"] } : Params).Visibility
      = "private" ∧
    "/templates/ingress.yaml"
      ∉ getTemplates { Visibility := "private", LocalManifests := ["./gke/ingress.yaml"] } := by
  decide

/-- C7 amended: for every configuration whose local-manifest override list
contains no entry with base filename ingress.yaml or application-secrets.yaml,
the composed template set contains the ingress template if and only if
visibility is private or iap, and contains the application-secrets template
if and only if the secrets map is non-empty. -/
theorem ingress_and_secrets_templates_iff (p : Params)
    (h : ∀ o ∈ p.LocalManifests,
      baseFilename o ≠ "ingress.yaml" ∧ baseFilename o ≠ "application-secrets.yaml") :
    ("/templates/ingress.yaml" ∈ getTemplates p
      ↔ (p.Visibility = "private" ∨ p.Visibility = "iap")) ∧
    ("/templates/application-secrets.yaml" ∈ getTemplates p ↔ p.Secrets.Keys ≠ []) := by
  constructor
  · have harg : ∀ o ∈ p.LocalManifests,
        baseFilename o ≠ baseFilename "/templates/ingress.yaml" := fun o ho => by
      have hb : baseFilename "/templates/ingress.yaml" = "ingress.yaml" := by decide
      rw [hb]
      exact (h o ho).1
    rw [getTemplates, mem_foldl_override harg]
    simp [baseTemplates, List.mem_append, mem_ite_singleton]
  · have harg : ∀ o ∈ p.LocalManifests,
        baseFilename o ≠ baseFilename "/templates/application-secrets.yaml" := fun o ho => by
      have hb : baseFilename "/templates/application-secrets.yaml"
          = "application-secrets.yaml" := by decide
      rw [hb]
      exact (h o ho).2
    rw [getTemplates, mem_foldl_override harg]
    simp [baseTemplates, List.mem_append, mem_ite_singleton]

theorem ingress_and_secrets_templates_iff_witness :
    "/templates/ingress.yaml" ∈ getTemplates ({ Visibility := "iap" } : Params) :=
  ((ingress_and_secrets_templates_iff { Visibility := "iap" } (by simp)).1).mpr (Or.inr rfl)

theorem selected_templates_nodup (p : Params) :
    (((baseTemplates
      ++ (if p.Visibility = "private" ∨ p.Visibility = "iap" then ["/templates/ingress.yaml"] else [])
      ++ (if p.Secrets.Keys ≠ [] then ["/templates/application-secrets.yaml"] else [])
      ++ (if p.Configs.Files ≠ [] then ["/templates/application-configs.yaml"] else []))).map
        baseFilename).Nodup := by
  split_ifs <;> decide

theorem nodup_overrideTemplate {l : List String} {o : String}
    (h : (l.map baseFilename).Nodup) : ((overrideTemplate l o).map baseFilename).Nodup := by
  unfold overrideTemplate
  split_ifs with hany
  · have hmap : ((l.map (fun t => if baseFilename t = baseFilename o then o else t)).map baseFilename)
        = l.map baseFilename := by
      rw [List.map_map]
      apply List.map_congr_left
      intro t ht
      by_cases hb : baseFilename t = baseFilename o
      · simp [hb]
      · simp [hb]
    rw [hmap]
    exact h
  · rw [List.map_append, List.nodup_append]
    refine ⟨h, by simp, ?_⟩
    simp only [List.any_eq_true, decide_eq_true_eq, not_exists, not_and] at hany
    intro a ha hb
    simp only [List.map_singleton, List.mem_singleton] at hb
    rcases List.mem_map.mp ha with ⟨t, ht, rfl⟩
    exact absurd (hb ▸ rfl) (fun he => (hany t ht) he)

theorem nodup_foldl_override (ovs : List String) {l : List String}
    (h : (l.map baseFilename).Nodup) :
    ((ovs.foldl overrideTemplate l).map baseFilename).Nodup := by
  induction ovs generalizing l with
  | nil => simpa
  | cons o os ih => exact ih (nodup_overrideTemplate h)

/-- C8: the override pass — a local override whose base filename matches an
already-selected template replaces it in place (the list becomes the map that
substitutes the override for every entry with that base filename, so order
and position are preserved and the built-in entry is gone unless it literally
equals the override), an override with a novel base filename is appended at
the end, and the final template list never contains two entries with the same
base filename. -/
theorem template_override_pass_invariants :
    (∀ p : Params, ((getTemplates p).map baseFilename).Nodup) ∧
    (∀ (l : List String) (o : String),
      (l.any fun t => baseFilename t = baseFilename o) = true →
        overrideTemplate l o
          = l.map (fun t => if baseFilename t = baseFilename o then o else t)) ∧
    (∀ (l : List String) (o t : String),
      (l.any fun t => baseFilename t = baseFilename o) = true →
        baseFilename t = baseFilename o → t ≠ o → t ∉ overrideTemplate l o) ∧
    (∀ (l : List String) (o : String),
      (l.any fun t => baseFilename t = baseFilename o) = false →
        overrideTemplate l o = l ++ [o]) := by
  refine ⟨?_, ?_, ?_, ?_⟩
  · intro p
    exact nodup_foldl_override _ (selected_templates_nodup p)
  · intro l o hany
    unfold overrideTemplate
    rw [if_pos hany]
  · intro l o t hany hbn hne hmem
    unfold overrideTemplate at hmem
    rw [if_pos hany] at hmem
    rcases List.mem_map.mp hmem with ⟨y, _, hxy⟩
    by_cases hb : baseFilename y = baseFilename o
    · rw [if_pos hb] at hxy
      exact hne hxy.symm
    · rw [if_neg hb] at hxy
      subst hxy
      exact hb hbn
  · intro l o hany
    unfold overrideTemplate
    rw [if_neg (by simp [hany])]

theorem template_override_pass_invariants_witness :
    ((getTemplates { LocalManifests := ["./gke/service.yaml", "./gke/extra.yaml"] }).map
      baseFilename).Nodup ∧
    overrideTemplate ["/templates/service.yaml"] "./gke/service.yaml" = ["./gke/service.yaml"] ∧
    "/templates/service.yaml" ∉ overrideTemplate ["/templates/service.yaml"] "./gke/service.yaml" ∧
    overrideTemplate ["/templates/service.yaml"] "./gke/extra.yaml"
      = ["/templates/service.yaml", "./gke/extra.yaml"] :=
  ⟨template_override_pass_invariants.1 { LocalManifests := ["./gke/service.yaml", "./gke/extra.yaml"] },
   by rw [template_override_pass_invariants.2.1 _ _ (by decide)]; decide,
   template_override_pass_invariants.2.2.1 _ _ _ (by decide) (by decide) (by decide),
   template_override_pass_invariants.2.2.2 _ _ (by decide)⟩
